import Mathlib

/-!
Verification development for a single-page financial dashboard
(`src/app.py`).  The file embeds the configuration lookup, the quote
fetcher `get_safe_data`, the generation client `get_gemini_response`,
the market-scan button handler, and the risk-allocation table
`risk_map`, together with the multi-candidate generation client and
the dynamic model-discovery routine that the specification describes
for repository revisions not included under `src/`.
-/

namespace StockApp

/-! ## Configuration and startup (`src/app.py` lines 10-17) -/

/-- Outcome of the startup configuration block: either the script is
halted after showing an error message (`st.stop`), or it continues
running with the retrieved API key. -/
inductive AppStart where
  | halted (errorShown : String)
  | running (apiKey : String)
deriving DecidableEq, Repr

/-- The error message displayed when the API key is missing. -/
def missingKeyMsg : String := "⚠️ API Key not found. Please set it in Streamlit Secrets."

/-- Embeds lines 10-14: `API_KEY = st.secrets["GEMINI_API_KEY"]` inside a
try block; a missing key raises, the handler shows an error and calls
`st.stop()`, which halts the script so that nothing below it runs.
The secrets store is modelled as a partial map from key names to values. -/
def startup (secrets : String → Option String) : AppStart :=
  match secrets "GEMINI_API_KEY" with
  | some k => AppStart.running k
  | none => AppStart.halted missingKeyMsg

/-- Line 17: the hardcoded model identifier used by `get_gemini_response`. -/
def MODEL_NAME : String := "gemini-2.5-flash"

/-- Line 19: the fixed ticker watchlist. -/
def WATCHLIST : List String := ["NVDA", "TSLA", "AAPL", "AMD", "MSFT", "BTC-USD", "ETH-USD"]

/-! ## Quote fetcher `get_safe_data` (`src/app.py` lines 26-41) -/

/-- The data the quote library can deliver for one ticker inside the try
block: the Close column of the one-day history (prices as exact cent
counts, oldest first; only emptiness and the last entry are observed by
the code) and the news list (each item carries an optional title field,
`none` when the item has no title key). -/
structure TickerData where
  histClose : List Nat
  news : List (Option String)
deriving DecidableEq, Repr

/-- Digit character for a value below ten. -/
def digitChar (d : Nat) : Char := Char.ofNat (48 + d)

/-- Decimal digits of `n`, least significant first; `fuel` bounds the
recursion and is always called with `fuel > n`. -/
def natDigitsRev : Nat → Nat → List Char
  | 0, _ => []
  | fuel + 1, n => if n < 10 then [digitChar n] else digitChar (n % 10) :: natDigitsRev fuel (n / 10)

/-- Insert a thousands-separator comma before every digit whose position
(counted from the least significant digit, starting at 0) is a positive
multiple of three.  Input and output are least significant first. -/
def commasRevAux : List Char → Nat → List Char
  | [], _ => []
  | d :: rest, pos =>
      if pos % 3 = 0 ∧ pos ≠ 0 then ',' :: d :: commasRevAux rest (pos + 1)
      else d :: commasRevAux rest (pos + 1)

/-- Python formatting of a monetary amount given in cents with the format
spec comma-and-two-decimals, as in line 39 of the source: thousands
separators in the integer part, exactly two fractional digits. -/
def formatMoney (cents : Nat) : String :=
  let dollars := cents / 100
  let frac := cents % 100
  let whole := String.mk (commasRevAux (natDigitsRev (dollars + 1) dollars) 0).reverse
  whole ++ String.mk ['.', digitChar (frac / 10), digitChar (frac % 10)]

/-- Lines 34-37: the news text is empty when the news list is empty
(Python truthiness of the list), otherwise the first two titles, a
missing title replaced by the fixed string, joined with a separator. -/
def newsText (d : TickerData) : String :=
  if d.news.isEmpty then ""
  else String.intercalate " | " ((d.news.take 2).map (fun o => o.getD "No Title"))

/-- Embeds `get_safe_data` (lines 26-41).  `fetch` models the quote
library for a fixed instant: `none` means some call in the try block
raised, `some d` means the history and news were delivered.  On a raise
the except handler returns the sentinel string; otherwise the price is
the last close if the history is non-empty and `0.0` if it is empty,
rendered with the comma-two-decimal format next to the news text. -/
def get_safe_data (fetch : String → Option TickerData) (ticker : String) : String :=
  match fetch ticker with
  | none => ticker ++ ": Data Unavailable"
  | some d =>
      let price := match d.histClose.getLast? with
        | some p => p
        | none => 0
      ticker ++ ": $" ++ formatMoney price ++ " (" ++ newsText d ++ ")"

/-! ## Generation client (`src/app.py` lines 43-50) and its
multi-candidate form.

`src/app.py` issues a single request against the hardcoded
`MODEL_NAME`.  The specification additionally describes (for
repository revisions not included under `src/`) a fallback loop over
an ordered candidate list and a dynamic discovery variant; those are
modelled from the specification below and marked as such. -/

/-- Result of one generation attempt against one model identifier:
either the parsed text of a successful response, or a recorded failure
detail (non-success status code or transport-exception text). -/
inductive AttemptResult where
  | ok (text : String)
  | err (detail : String)
deriving DecidableEq, Repr

/-- Embeds `get_gemini_response` (lines 43-50): one request against
`MODEL_NAME`; on success the response text is returned, on an exception
the handler returns the error string.  `attempt` models the remote
endpoint for the given prompt; the second component counts outbound
generation calls. -/
def get_gemini_response (attempt : String → String → AttemptResult) (prompt : String) :
    String × Nat :=
  match attempt MODEL_NAME prompt with
  | AttemptResult.ok t => (t, 1)
  | AttemptResult.err e => ("AI Error: " ++ e, 1)

/-- Modelled from the spec: the generation-client fallback loop of
section 4.1 (present in repository revisions not included under
`src/`; `src/app.py` hardcodes the single candidate `MODEL_NAME`).
Walk the candidate list in order, one attempt per candidate; the first
success short-circuits, a failure records its detail and advances; when
all candidates are exhausted a synthesized failure string containing
the last recorded error is returned, in the format the `src` revision
uses.  The second component counts outbound generation calls. -/
def generateAux (attempt : String → AttemptResult) : List String → String → String × Nat
  | [], lastErr => ("AI Error: " ++ lastErr, 0)
  | c :: rest, _lastErr =>
      match attempt c with
      | AttemptResult.ok t => (t, 1)
      | AttemptResult.err e =>
          let r := generateAux attempt rest e
          (r.1, r.2 + 1)

/-- Modelled from the spec: `generate(prompt)` over an ordered candidate
list, with the endpoint behaviour for the fixed prompt abstracted as
`attempt`.  Returns the response text (or synthesized failure string)
together with the number of outbound generation calls issued. -/
def generate (attempt : String → AttemptResult) (candidates : List String) : String × Nat :=
  generateAux attempt candidates ""

/-- One part of a generation response body, as in the wire format
`candidates[0].content.parts[0].text`. -/
structure RespPart where
  text : String
deriving DecidableEq, Repr

/-- The content object of one response candidate. -/
structure RespContent where
  parts : List RespPart
deriving DecidableEq, Repr

/-- One candidate of a generation response body. -/
structure RespCandidate where
  content : RespContent
deriving DecidableEq, Repr

/-- A generation response body: a list of candidates. -/
structure GenerateResponse where
  candidates : List RespCandidate
deriving DecidableEq, Repr

/-- Outcome of one HTTP generation request: a 200 with a body, a
non-success status code, or a transport exception. -/
inductive HttpResult where
  | ok (body : GenerateResponse)
  | status (code : Nat)
  | exn (msg : String)
deriving DecidableEq, Repr

/-- Parse the text field of the first candidate of a response body,
`candidates[0].content.parts[0].text`; `none` when the shape is
unexpected. -/
def parseText (b : GenerateResponse) : Option String :=
  match b.candidates with
  | [] => none
  | c :: _ =>
      match c.content.parts with
      | [] => none
      | p :: _ => some p.text

/-- Modelled from the spec: classify one HTTP generation request for a
candidate.  HTTP 200 with a parseable body yields the parsed text; a 200
with an unexpected body shape is treated as a distinct failure mode that
falls through to the next candidate (spec section 4.1, error
conditions); any other status records the status code, a transport
exception records its text. -/
def attemptOf (endpoint : String → HttpResult) (c : String) : AttemptResult :=
  match endpoint c with
  | HttpResult.ok body =>
      match parseText body with
      | some t => AttemptResult.ok t
      | none => AttemptResult.err "malformed response body"
  | HttpResult.status code => AttemptResult.err (Nat.repr code)
  | HttpResult.exn m => AttemptResult.err m

/-- Modelled from the spec: `generate` driven directly by an HTTP
endpoint model. -/
def generateHttp (endpoint : String → HttpResult) (candidates : List String) : String × Nat :=
  generate (attemptOf endpoint) candidates

/-! ## Dynamic model discovery (spec section 4.1 step 1, discovery
variant; not present in `src/app.py`, which hardcodes `MODEL_NAME`). -/

/-- Does the character list `s` start with the character list `pat`? -/
def charsStartWith : List Char → List Char → Bool
  | _, [] => true
  | [], _ :: _ => false
  | c :: cs, p :: ps => c == p && charsStartWith cs ps

/-- Does the character list `s` contain `pat` as a contiguous run? -/
def charsContain : List Char → List Char → Bool
  | [], pat => pat.isEmpty
  | c :: rest, pat => charsStartWith (c :: rest) pat || charsContain rest pat

/-- Substring containment on strings (free-text matching, exactly as the
spec prescribes for the discovery rule). -/
def strContains (s pat : String) : Bool := charsContain s.data pat.data

/-- One entry of the capability-listing response: a model name and its
supported generation methods. -/
structure ListedModel where
  name : String
  supportedGenerationMethods : List String
deriving DecidableEq, Repr

/-- Does a listed entry advertise the content-generation capability? -/
def supportsGenerate (m : ListedModel) : Bool :=
  m.supportedGenerationMethods.contains "generateContent"

/-- Modelled from the spec: scan the listing for a capable entry,
preferring a name containing the substring flash, else the first
capable entry, else the hardcoded default `MODEL_NAME`. -/
def pickModel (entries : List ListedModel) : String :=
  let capable := entries.filter supportsGenerate
  match capable.find? (fun e => strContains e.name "flash") with
  | some e => e.name
  | none =>
      match capable with
      | e :: _ => e.name
      | [] => MODEL_NAME

/-- The process-wide discovery cache: the previously resolved model
identifier, if any. -/
structure DiscoveryState where
  cachedModel : Option String
deriving DecidableEq, Repr

/-- The discovery cache at process start: nothing resolved yet. -/
def freshDiscovery : DiscoveryState := DiscoveryState.mk none

/-- Modelled from the spec: resolve the model identifier.  A cached
identifier is returned with zero listing requests; otherwise the
capability-listing endpoint is called once, the resolved identifier is
cached for the remainder of the process lifetime (no invalidation).
Returns the identifier, the updated cache, and the number of listing
requests issued. -/
def resolveModel (listModels : Unit → List ListedModel) (st : DiscoveryState) :
    String × DiscoveryState × Nat :=
  match st.cachedModel with
  | some m => (m, st, 0)
  | none =>
      let m := pickModel (listModels ())
      (m, DiscoveryState.mk (some m), 1)

/-! ## Market scan handler (`src/app.py` lines 55-65) -/

/-- The process-wide session object; the scan handler stores the market
snapshot under the key `market_data` (`none` before the first scan, as
in a fresh session after a process restart). -/
structure SessionState where
  market_data : Option String
deriving DecidableEq, Repr

/-- The session state of a freshly started process: no snapshot. -/
def freshSession : SessionState := SessionState.mk none

/-- Lines 57-61: the snapshot string is accumulated over the watchlist
in order, appending each per-ticker display string followed by a
newline. -/
def scanMarkets (fetch : String → Option TickerData) : String :=
  WATCHLIST.foldl (fun acc t => acc ++ get_safe_data fetch t ++ "\n") ""

/-- Lines 55-65: the Scan-Markets button handler recomputes the snapshot
and overwrites the session entry with it (last scan wins). -/
def scanHandler (fetch : String → Option TickerData) (_st : SessionState) : SessionState :=
  SessionState.mk (some (scanMarkets fetch))

/-- Concatenation of a list of strings, in order. -/
def strJoin : List String → String
  | [] => ""
  | s :: rest => s ++ strJoin rest

/-! ## Risk-allocation table and portfolio pie chart
(`src/app.py` lines 127-140) -/

/-- Embeds `risk_map` (lines 127-133): the static mapping from
risk-tolerance label to asset-class percentages, in the insertion order
of the Python dict literals.  Percentages are integers in the source;
they are modelled as `Int` so that non-negativity is a statement about
the table rather than about the type. -/
def risk_map : String → Option (List (String × Int))
  | "Very Low" => some [("Bonds", 70), ("Cash", 20), ("Index Funds", 10), ("Stocks", 0), ("Crypto", 0)]
  | "Low" => some [("Bonds", 50), ("Index Funds", 30), ("Cash", 10), ("Stocks", 10), ("Crypto", 0)]
  | "Moderate" => some [("Index Funds", 40), ("Stocks", 30), ("Bonds", 20), ("Crypto", 5), ("Cash", 5)]
  | "High" => some [("Stocks", 50), ("Crypto", 30), ("Index Funds", 10), ("Bonds", 0), ("Tech ETFs", 10)]
  | "Very High" => some [("Crypto", 60), ("Tech Options", 20), ("Stocks", 20), ("Bonds", 0), ("Cash", 0)]
  | _ => none

/-- The five radio-button labels offered by the UI (lines 121-122). -/
def riskLabels : List String := ["Very Low", "Low", "Moderate", "High", "Very High"]

/-- Lines 139-140: the data-frame rows the pie chart is built from are
the allocation entries filtered to strictly positive percentage. -/
def strategyPieRows (alloc : List (String × Int)) : List (String × Int) :=
  alloc.filter (fun kv => decide (0 < kv.2))

/-! ## Second revision (`src/app.py` lines 165-326).

The source file contains a second, concatenated revision of the same
script.  Its `get_safe_data` (lines 189-204), `get_gemini_response`
(lines 206-213) with `MODEL_NAME` (line 180), and `risk_map`
(lines 289-295) are embedded separately below, verbatim from that
revision, to compare against the first revision. -/

/-- Line 180 of the second revision. -/
def MODEL_NAME2 : String := "gemini-2.5-flash"

/-- Embeds `get_safe_data` of the second revision (lines 189-204). -/
def get_safe_data2 (fetch : String → Option TickerData) (ticker : String) : String :=
  match fetch ticker with
  | none => ticker ++ ": Data Unavailable"
  | some d =>
      let price := match d.histClose.getLast? with
        | some p => p
        | none => 0
      let news_text :=
        if d.news.isEmpty then ""
        else String.intercalate " | " ((d.news.take 2).map (fun o => o.getD "No Title"))
      ticker ++ ": $" ++ formatMoney price ++ " (" ++ news_text ++ ")"

/-- Embeds `get_gemini_response` of the second revision (lines 206-213). -/
def get_gemini_response2 (attempt : String → String → AttemptResult) (prompt : String) :
    String × Nat :=
  match attempt MODEL_NAME2 prompt with
  | AttemptResult.ok t => (t, 1)
  | AttemptResult.err e => ("AI Error: " ++ e, 1)

/-- Embeds `risk_map` of the second revision (lines 289-295). -/
def risk_map2 : String → Option (List (String × Int))
  | "Very Low" => some [("Bonds", 70), ("Cash", 20), ("Index Funds", 10), ("Stocks", 0), ("Crypto", 0)]
  | "Low" => some [("Bonds", 50), ("Index Funds", 30), ("Cash", 10), ("Stocks", 10), ("Crypto", 0)]
  | "Moderate" => some [("Index Funds", 40), ("Stocks", 30), ("Bonds", 20), ("Crypto", 5), ("Cash", 5)]
  | "High" => some [("Stocks", 50), ("Crypto", 30), ("Index Funds", 10), ("Bonds", 0), ("Tech ETFs", 10)]
  | "Very High" => some [("Crypto", 60), ("Tech Options", 20), ("Stocks", 20), ("Bonds", 0), ("Cash", 0)]
  | _ => none

/-! ## Helper lemmas -/

/-- String concatenation is associative. -/
theorem strAppend_assoc (a b c : String) : a ++ b ++ c = a ++ (b ++ c) := by
  apply String.ext
  simp [String.data_append, List.append_assoc]

/-- The candidate loop on an all-failing list counts one call per
candidate and ends with the failure string of the last candidate,
whatever the accumulated error was on entry. -/
theorem generateAux_all_fail (attempt : String → AttemptResult) :
    ∀ (cs : List String) (hne : cs ≠ []) (acc : String),
      (∀ c ∈ cs, ∃ e, attempt c = AttemptResult.err e) →
      ∃ elast, attempt (cs.getLast hne) = AttemptResult.err elast ∧
        generateAux attempt cs acc = ("AI Error: " ++ elast, cs.length)
  | [], hne, _, _ => absurd rfl hne
  | [c], _, acc, hfail => by
      obtain ⟨e, he⟩ := hfail c (List.mem_singleton.mpr rfl)
      exact ⟨e, he, by simp [generateAux, he]⟩
  | c :: c' :: rest, _, acc, hfail => by
      obtain ⟨e, he⟩ := hfail c (List.mem_cons_self c _)
      obtain ⟨elast, hlast, heq⟩ :=
        generateAux_all_fail attempt (c' :: rest) (List.cons_ne_nil c' rest) e
          (fun x hx => hfail x (List.mem_cons_of_mem c hx))
      refine ⟨elast, ?_, ?_⟩
      · simpa [List.getLast] using hlast
      · have h1 : generateAux attempt (c :: c' :: rest) acc =
            ((generateAux attempt (c' :: rest) e).1, (generateAux attempt (c' :: rest) e).2 + 1) := by
          simp only [generateAux, he]
        rw [h1, heq]
        rfl

/-- Folding the scan accumulation over a list equals the accumulator
followed by the ordered concatenation of the per-element strings, each
with its newline. -/
theorem scan_foldl_eq (f : String → String) (l : List String) :
    ∀ acc : String,
      l.foldl (fun a t => a ++ f t ++ "\n") acc =
        acc ++ strJoin (l.map (fun t => f t ++ "\n")) := by
  induction l with
  | nil => intro acc; simp [strJoin, String.append_empty]
  | cons x xs ih =>
      intro acc
      simp only [List.foldl_cons, List.map_cons, strJoin, ih]
      rw [strAppend_assoc acc (f x)]
      exact strAppend_assoc acc (f x ++ "\n") _

/-! ## Claims -/

/-- C1: for every non-empty candidate model list, if the first
candidate request succeeds (HTTP 200 whose body parses to a text),
`generate` returns that text and issues exactly one outbound generation
call: no further candidates are tried. -/
theorem C1_first_success_short_circuits (endpoint : String → HttpResult) (c : String)
    (rest : List String) (body : GenerateResponse) (t : String)
    (hok : endpoint c = HttpResult.ok body) (ht : parseText body = some t) :
    generateHttp endpoint (c :: rest) = (t, 1) := by
  simp [generateHttp, generate, generateAux, attemptOf, hok, ht]

/-- A successful one-candidate response body whose first part carries
the text OK. -/
def okBody : GenerateResponse :=
  GenerateResponse.mk [RespCandidate.mk (RespContent.mk [RespPart.mk "OK"])]

/-- Witness for C1 at a concrete endpoint that answers HTTP 200. -/
theorem C1_first_success_short_circuits_witness :
    (fun _ : String => HttpResult.ok okBody) "m1" = HttpResult.ok okBody ∧
    parseText okBody = some "OK" ∧
    generateHttp (fun _ => HttpResult.ok okBody) ["m1", "m2"] = ("OK", 1) :=
  ⟨rfl, rfl, C1_first_success_short_circuits (fun _ => HttpResult.ok okBody) "m1" ["m2"] okBody "OK" rfl rfl⟩

/-- The endpoint of the C2 scenario: candidate m1 answers HTTP 404,
candidate m2 answers HTTP 200 with the body whose parsed text is OK. -/
def c2Endpoint : String → HttpResult := fun m =>
  if m = "m1" then HttpResult.status 404
  else if m = "m2" then HttpResult.ok okBody
  else HttpResult.exn "unexpected candidate"

/-- C2: with candidate list m1, m2, where m1 returns HTTP 404 and m2
returns HTTP 200 with body parsing to OK, `generate` returns OK and
issues exactly two outbound calls: one attempt per candidate, advancing
(not retrying) on the non-success status. -/
theorem C2_fallback_scenario : generateHttp c2Endpoint ["m1", "m2"] = ("OK", 2) := by
  decide

/-- C3: on a non-empty candidate list all of whose attempts fail,
`generate` returns (it never raises) the synthesized failure string
built from the detail of the last recorded error, and issues exactly
one outbound call per candidate. -/
theorem C3_all_fail_returns_last_error (attempt : String → AttemptResult)
    (cs : List String) (hne : cs ≠ [])
    (hfail : ∀ c ∈ cs, ∃ e, attempt c = AttemptResult.err e) :
    ∃ elast, attempt (cs.getLast hne) = AttemptResult.err elast ∧
      generate attempt cs = ("AI Error: " ++ elast, cs.length) :=
  generateAux_all_fail attempt cs hne "" hfail

/-- Witness for C3 at a concrete two-candidate list whose attempts both
fail. -/
theorem C3_all_fail_returns_last_error_witness :
    (["m1", "m2"] : List String) ≠ [] ∧
    (∀ c ∈ (["m1", "m2"] : List String),
      ∃ e, (fun _ : String => AttemptResult.err "404") c = AttemptResult.err e) ∧
    ∃ elast,
      (fun _ : String => AttemptResult.err "404")
          ((["m1", "m2"] : List String).getLast (by simp)) = AttemptResult.err elast ∧
      generate (fun _ => AttemptResult.err "404") ["m1", "m2"] =
        ("AI Error: " ++ elast, (["m1", "m2"] : List String).length) :=
  ⟨by simp, fun _ _ => ⟨"404", rfl⟩,
    C3_all_fail_returns_last_error (fun _ => AttemptResult.err "404") ["m1", "m2"]
      (by simp) (fun _ _ => ⟨"404", rfl⟩)⟩

/-- A fetch model that delivers an empty one-day history and no news,
without raising. -/
def emptyHistFetch : String → Option TickerData := fun _ => some (TickerData.mk [] [])

/-- C4 counterexample: an empty price history does not produce the
Data-Unavailable sentinel; the code substitutes the price 0.0 and
renders the normal format. -/
theorem C4_empty_history_not_sentinel :
    get_safe_data emptyHistFetch "NVDA" = "NVDA: $0.00 ()" ∧
    get_safe_data emptyHistFetch "NVDA" ≠ "NVDA: Data Unavailable" := by
  decide

/-- C4 amended: only a quote fetch that raises returns the sentinel
string; an empty history is not treated as a failure and yields the
normally formatted string with price 0.00. -/
theorem C4_sentinel_only_on_raise (fetch : String → Option TickerData) (ticker : String) :
    (fetch ticker = none → get_safe_data fetch ticker = ticker ++ ": Data Unavailable") ∧
    (∀ d, fetch ticker = some d → d.histClose = [] →
      get_safe_data fetch ticker = ticker ++ ": $" ++ "0.00" ++ " (" ++ newsText d ++ ")") := by
  constructor
  · intro h
    simp [get_safe_data, h]
  · intro d h hh
    simp only [get_safe_data, h, hh, List.getLast?_nil]
    rfl

/-- Witness for C4 amended at a raising fetch and at the empty-history
fetch. -/
theorem C4_sentinel_only_on_raise_witness :
    get_safe_data (fun _ => none) "NVDA" = "NVDA: Data Unavailable" ∧
    get_safe_data emptyHistFetch "NVDA" =
      "NVDA" ++ ": $" ++ "0.00" ++ " (" ++ newsText (TickerData.mk [] []) ++ ")" :=
  ⟨(C4_sentinel_only_on_raise (fun _ => none) "NVDA").1 rfl,
    (C4_sentinel_only_on_raise emptyHistFetch "NVDA").2 (TickerData.mk [] []) rfl rfl⟩

/-- C5: when the listing returns one capable entry whose name contains
flash and one capable entry whose name does not, in either order, the
resolved identifier is the flash entry and one listing request is
issued; resolving again with the cache filled returns the same
identifier with zero additional listing requests. -/
theorem C5_discovery_flash_cached (a b : ListedModel) (listModels : Unit → List ListedModel)
    (ha1 : supportsGenerate a = true) (ha2 : strContains a.name "flash" = true)
    (hb1 : supportsGenerate b = true) (hb2 : strContains b.name "flash" = false)
    (horder : listModels () = [a, b] ∨ listModels () = [b, a]) :
    resolveModel listModels freshDiscovery = (a.name, DiscoveryState.mk (some a.name), 1) ∧
    resolveModel listModels (DiscoveryState.mk (some a.name)) =
      (a.name, DiscoveryState.mk (some a.name), 0) := by
  constructor
  · rcases horder with h | h <;>
      simp [resolveModel, freshDiscovery, pickModel, h, List.filter, List.find?, ha1, ha2, hb1, hb2]
  · rfl

/-- A capable listed entry whose name contains flash. -/
def flashEntry : ListedModel := ListedModel.mk "models/gemini-1.5-flash" ["generateContent"]

/-- A capable listed entry whose name does not contain flash. -/
def proEntry : ListedModel := ListedModel.mk "models/gemini-1.5-pro" ["generateContent"]

/-- Witness for C5 at a concrete two-entry listing with the flash entry
second. -/
theorem C5_discovery_flash_cached_witness :
    supportsGenerate flashEntry = true ∧
    strContains flashEntry.name "flash" = true ∧
    supportsGenerate proEntry = true ∧
    strContains proEntry.name "flash" = false ∧
    resolveModel (fun _ => [proEntry, flashEntry]) freshDiscovery =
      (flashEntry.name, DiscoveryState.mk (some flashEntry.name), 1) ∧
    resolveModel (fun _ => [proEntry, flashEntry]) (DiscoveryState.mk (some flashEntry.name)) =
      (flashEntry.name, DiscoveryState.mk (some flashEntry.name), 0) := by
  refine ⟨by decide, by decide, by decide, by decide, ?_⟩
  exact C5_discovery_flash_cached flashEntry proEntry (fun _ => [proEntry, flashEntry])
    (by decide) (by decide) (by decide) (by decide) (Or.inr rfl)

/-- C6: when the secrets store has no entry for the API key, startup
halts with the missing-configuration error and the script never reaches
the running state, so no other operation runs. -/
theorem C6_missing_key_halts (secrets : String → Option String)
    (h : secrets "GEMINI_API_KEY" = none) :
    startup secrets = AppStart.halted missingKeyMsg ∧
    ∀ k, startup secrets ≠ AppStart.running k := by
  refine ⟨by simp [startup, h], ?_⟩
  intro k hk
  simp [startup, h] at hk

/-- Witness for C6 at the empty secrets store. -/
theorem C6_missing_key_halts_witness :
    ((fun _ : String => (none : Option String)) "GEMINI_API_KEY" = none) ∧
    startup (fun _ => none) = AppStart.halted missingKeyMsg ∧
    ∀ k, startup (fun _ => none) ≠ AppStart.running k :=
  ⟨rfl, C6_missing_key_halts (fun _ => none) rfl⟩

/-- C7: the scan handler stores, whatever the previous session state
was (last scan wins), the snapshot obtained by concatenating in
watchlist order one per-ticker display string per entry, each followed
by a newline; a fresh process (after a restart) holds no snapshot. -/
theorem C7_scan_snapshot (fetch : String → Option TickerData) (st : SessionState) :
    scanHandler fetch st =
      SessionState.mk (some (strJoin (WATCHLIST.map (fun t => get_safe_data fetch t ++ "\n")))) ∧
    freshSession.market_data = none := by
  refine ⟨?_, rfl⟩
  simp only [scanHandler, scanMarkets, scan_foldl_eq (get_safe_data fetch)]
  rw [String.empty_append]

/-- C8: every percentage in every row of the risk-allocation table is a
non-negative integer. -/
theorem C8_percentages_nonneg (label : String) (alloc : List (String × Int))
    (h : risk_map label = some alloc) : ∀ kv ∈ alloc, 0 ≤ kv.2 := by
  unfold risk_map at h
  split at h
  all_goals first
  | exact Option.noConfusion h
  | (injection h with h; subst h; decide)

/-- Witness for C8 at the Very-Low row. -/
theorem C8_percentages_nonneg_witness :
    risk_map "Very Low" =
      some [("Bonds", 70), ("Cash", 20), ("Index Funds", 10), ("Stocks", 0), ("Crypto", 0)] ∧
    ∀ kv ∈ [(("Bonds" : String), (70 : Int)), ("Cash", 20), ("Index Funds", 10),
        ("Stocks", 0), ("Crypto", 0)], 0 ≤ kv.2 :=
  ⟨rfl, C8_percentages_nonneg "Very Low" _ rfl⟩

/-- C9: the second concatenated revision of the script has the same
quote fetcher, generation client and allocation table as the first: the
three pairs of definitions are extensionally equal. -/
theorem C9_revisions_extensionally_equal :
    (∀ fetch ticker, get_safe_data fetch ticker = get_safe_data2 fetch ticker) ∧
    (∀ attempt prompt, get_gemini_response attempt prompt = get_gemini_response2 attempt prompt) ∧
    (∀ label, risk_map label = risk_map2 label) :=
  ⟨fun _ _ => rfl, fun _ _ => rfl, fun _ => rfl⟩

/-- C10: every row of the risk-allocation table sums to exactly 100,
and the pie chart is built exactly from the rows with strictly positive
percentage. -/
theorem C10_sum100_pie_positive (label : String) (alloc : List (String × Int))
    (h : risk_map label = some alloc) :
    (alloc.map Prod.snd).sum = 100 ∧
    (∀ kv, kv ∈ strategyPieRows alloc ↔ kv ∈ alloc ∧ 0 < kv.2) := by
  refine ⟨?_, ?_⟩
  · unfold risk_map at h
    split at h
    all_goals first
    | exact Option.noConfusion h
    | (injection h with h; subst h; decide)
  · intro kv
    simp [strategyPieRows, List.mem_filter]

/-- Witness for C10 at the High row. -/
theorem C10_sum100_pie_positive_witness :
    risk_map "High" =
      some [("Stocks", 50), ("Crypto", 30), ("Index Funds", 10), ("Bonds", 0), ("Tech ETFs", 10)] ∧
    (([(("Stocks" : String), (50 : Int)), ("Crypto", 30), ("Index Funds", 10), ("Bonds", 0),
        ("Tech ETFs", 10)].map Prod.snd).sum = 100 ∧
      ∀ kv, kv ∈ strategyPieRows [(("Stocks" : String), (50 : Int)), ("Crypto", 30),
          ("Index Funds", 10), ("Bonds", 0), ("Tech ETFs", 10)] ↔
        kv ∈ [(("Stocks" : String), (50 : Int)), ("Crypto", 30), ("Index Funds", 10),
          ("Bonds", 0), ("Tech ETFs", 10)] ∧ 0 < kv.2) :=
  ⟨rfl, C10_sum100_pie_positive "High" _ rfl⟩

end StockApp
